import Mathlib

/-!
# Verification of the CSDevs capture pipeline and auto-exposure tuner

Shallow embedding of the core of the CSDevs repository:
* `csdCapture.py` — the buffer-managed capture pipeline
  (`captureThread.__reach_target_frame`, `captureThread.run`, buffer
  setup/close/release, frame statistics and frame saving), and
* `csdevs.py` — the closed-loop auto-exposure tuner
  (`CSDevs.__compute_applied_delta`, `CSDevs.__tune_control_value_by_ID`,
  `CSDevs.__can_tune_property`, `CSDevs.__property_masked`,
  `CSDevs.set_named_control_limits`,
  `CSDevs.__limit_control_value_to_current_range`).

Python floats are modelled as real numbers, machine integers as `Nat`/`Int`,
the per-cycle interaction with the V4L2 device as explicit environment
records describing the outcome of each external call.
-/

namespace CSDevs

/-! ## Frame selector: `captureThread.__reach_target_frame` (csdCapture.py)

The loop counts dequeued frames from 0 up to `capFrame`, requeues every
frame whose counter differs from `capFrame`, retains the buffer dequeued at
counter `capFrame`, and runs `__set_controls` at the top of the iteration
whose counter equals `ctrlFrame`.  The sequence of buffers the device would
deliver to successive `DQBUF` calls is the list `bufs`; an empty list means
the next `select` wait times out. -/

structure SelectorResult where
  /-- the buffer stored into `bufToSave` (python: member set before `return 0`) -/
  retained : Option Nat
  /-- the buffers given back by `__requeue_frame`, in order -/
  requeued : List Nat
  /-- the frame-counter values at which `__set_controls` was invoked -/
  ctrlFrames : List Nat
  /-- the return value of `__reach_target_frame` -/
  code : Int
deriving Repr, DecidableEq

/-- One pass of the `while not self.capDev.closed and (curFrame <= self.capFrame)`
loop of `__reach_target_frame`, with the device always open and every
`select`/`DQBUF` pair delivering the next entry of `bufs` (no entry left:
the wait times out, python returns `-2`). -/
def reachLoop (capFrame ctrlFrame : Nat) : Nat → List Nat → List Nat → List Nat → SelectorResult
  | curFrame, bufs, req, ctl =>
    if curFrame ≤ capFrame then
      -- `if curFrame == ctrlFrame: self.__set_controls()`
      let ctl' := if curFrame = ctrlFrame then ctl ++ [curFrame] else ctl
      match bufs with
      | [] => ⟨none, req, ctl', -2⟩
      | b :: rest =>
        if curFrame ≠ capFrame then
          reachLoop capFrame ctrlFrame (curFrame + 1) rest (req ++ [b]) ctl'
        else
          ⟨some b, req, ctl', 0⟩
    else
      ⟨none, req, ctl, -3⟩

/-- `captureThread.__reach_target_frame`: choose the control-application frame
(`capFrame / 3` when `capFrame > 2`, else `0`) and run the dequeue loop from
frame counter 0. -/
def reach_target_frame (capFrame : Nat) (bufs : List Nat) : SelectorResult :=
  if capFrame > 0 then
    let ctrlFrame := if capFrame > 2 then capFrame / 3 else 0
    reachLoop capFrame ctrlFrame 0 bufs [] []
  else
    ⟨none, [], [], -3⟩

lemma reachLoop_eq (cf : Nat) : ∀ (k cur : Nat) (bufs req ctl : List Nat),
    k < bufs.length →
    reachLoop (cur + k) cf cur bufs req ctl =
      ⟨bufs.get? k, req ++ bufs.take k,
       ctl ++ (List.range' cur (k + 1)).filter (· == cf), 0⟩ := by
  intro k
  induction k with
  | zero =>
    intro cur bufs req ctl hlen
    match bufs with
    | [] => simp at hlen
    | b :: rest =>
      rw [reachLoop]
      simp [List.range'_succ]
      by_cases h : cur = cf <;> simp [h]
  | succ k ih =>
    intro cur bufs req ctl hlen
    match bufs with
    | [] => simp at hlen
    | b :: rest =>
      rw [reachLoop]
      have hne : cur ≠ cur + (k + 1) := by omega
      have harr : cur + (k + 1) = (cur + 1) + k := by omega
      simp only [Nat.le_add_right, if_pos, hne, if_neg, ne_eq,
        not_false_eq_true, if_true]
      rw [harr, ih (cur + 1) rest (req ++ [b]) _ (by simpa using hlen)]
      have hr : List.range' cur (k + 1 + 1) = cur :: List.range' (cur + 1) (k + 1) :=
        List.range'_succ cur (k + 1) 1
      rw [hr]
      by_cases h : cur = cf
      · simp [List.filter_cons, h]
      · simp [List.filter_cons, h]

lemma filter_range'_eq_single (cf n : Nat) (h : cf < n) :
    (List.range' 0 n).filter (· == cf) = [cf] := by
  induction n with
  | zero => omega
  | succ n ih =>
    rw [List.range'_1_concat, List.filter_append]
    by_cases hc : cf < n
    · rw [ih hc]
      have hn : ((n : Nat) == cf) = false := by
        simp only [beq_eq_false_iff_ne, ne_eq]
        omega
      simp [hn]
    · have hcf : cf = n := by omega
      subst hcf
      have hemp : (List.range' 0 cf).filter (· == cf) = [] := by
        rw [List.filter_eq_nil_iff]
        intro a ha
        have h2 : 0 ≤ a ∧ a < 0 + cf := List.mem_range'_1.mp ha
        simp only [beq_iff_eq]
        omega
      rw [hemp]
      simp

/-- **C1 (amended).** For `targetFrameNumber = K ≥ 1`, when the device keeps
delivering frames, the loop requeues exactly `K` dequeued buffers untouched
(the frames counted 0 … K−1) and retains the `(K+1)`-th dequeued buffer as
the capture frame; e.g. `K = 5` requeues the buffers of frames 0,1,2,3,4 and
retains the buffer of frame 5. -/
theorem reach_target_frame_requeues_K_retains_succ (K : Nat) (bufs : List Nat)
    (hK : 1 ≤ K) (hlen : K < bufs.length) :
    (reach_target_frame K bufs).requeued = bufs.take K ∧
    (reach_target_frame K bufs).requeued.length = K ∧
    (reach_target_frame K bufs).retained = bufs.get? K ∧
    (reach_target_frame K bufs).code = 0 := by
  have hres := reachLoop_eq (if K > 2 then K / 3 else 0) K 0 bufs [] [] hlen
  rw [Nat.zero_add] at hres
  have hrt : reach_target_frame K bufs =
      ⟨bufs.get? K, [] ++ bufs.take K,
       [] ++ (List.range' 0 (K + 1)).filter (· == (if K > 2 then K / 3 else 0)),
       0⟩ := by
    unfold reach_target_frame
    rw [if_pos (by omega)]
    exact hres
  rw [hrt]
  refine ⟨by simp, ?_, by simp, by simp⟩
  simp [List.length_take]
  omega

/-- **C1 (counterexample).** The claim predicts that for `K = 5` exactly
`K − 1 = 4` buffers are requeued and the 5th dequeued buffer (frame 4) is
retained; on the code, 5 buffers (frames 0–4) are requeued and the 6th
dequeued buffer (frame 5) is retained. -/
theorem reach_target_frame_claim_false_at_5 :
    ¬ ((reach_target_frame 5 [10, 11, 12, 13, 14, 15]).requeued.length = 4 ∧
       (reach_target_frame 5 [10, 11, 12, 13, 14, 15]).retained = some 14) := by
  decide

/-- **C1 (witness).** Instantiation of the amended claim at `K = 5` with six
deliverable buffers. -/
theorem reach_target_frame_requeues_K_retains_succ_witness :
    (reach_target_frame 5 [10, 11, 12, 13, 14, 15]).requeued
      = [10, 11, 12, 13, 14] ∧
    (reach_target_frame 5 [10, 11, 12, 13, 14, 15]).retained = some 15 := by
  have h := reach_target_frame_requeues_K_retains_succ 5
    [10, 11, 12, 13, 14, 15] (by decide) (by decide)
  refine ⟨?_, ?_⟩
  · rw [h.1]; decide
  · rw [h.2.2.1]; decide

/-- **C9.** For every target frame number `K ≥ 1`, with the device delivering
frames up to the target, the pending control settings are applied exactly
once, at frame counter `⌊K / 3⌋` when `K > 2` and at frame counter `0` when
`K ≤ 2`, before the loop continues discarding frames. -/
theorem reach_target_frame_controls_at_third (K : Nat) (bufs : List Nat)
    (hK : 1 ≤ K) (hlen : K < bufs.length) :
    (reach_target_frame K bufs).ctrlFrames = [if K > 2 then K / 3 else 0] := by
  have hres := reachLoop_eq (if K > 2 then K / 3 else 0) K 0 bufs [] [] hlen
  rw [Nat.zero_add] at hres
  have hrt : reach_target_frame K bufs =
      ⟨bufs.get? K, [] ++ bufs.take K,
       [] ++ (List.range' 0 (K + 1)).filter (· == (if K > 2 then K / 3 else 0)),
       0⟩ := by
    unfold reach_target_frame
    rw [if_pos (by omega)]
    exact hres
  rw [hrt]
  show [] ++ (List.range' 0 (K + 1)).filter (· == (if K > 2 then K / 3 else 0))
      = [if K > 2 then K / 3 else 0]
  rw [List.nil_append, filter_range'_eq_single]
  split
  · exact Nat.lt_succ_of_le (Nat.div_le_self K 3)
  · omega

/-- **C9 (witness).** At `K = 7` the controls are applied exactly at frame
counter `⌊7/3⌋ = 2`. -/
theorem reach_target_frame_controls_at_third_witness :
    (reach_target_frame 7 [0, 1, 2, 3, 4, 5, 6, 7]).ctrlFrames = [2] := by
  have h := reach_target_frame_controls_at_third 7 [0, 1, 2, 3, 4, 5, 6, 7]
    (by decide) (by decide)
  rw [h]; decide

/-! ## Capture cycle: `captureThread.run` (csdCapture.py)

One call of the thread entry point, as a state machine over an explicit
environment describing the outcome of every external (V4L2/PIL) call.
Python exceptions are modelled with `Except`: `Except.error` carries the
state at the point where an exception escapes a helper into `run`'s
`except Exception` handler. -/

/-- Outcome of the QUERYBUF/mmap/QBUF loop of `__setup_capture_buffers`. -/
inductive MapOutcome where
  /-- every granted buffer is queried, mapped and queued -/
  | allOk : MapOutcome
  /-- a `TypeError`/`ValueError` is raised (and caught by
      `__setup_capture_buffers`) after `mapped` buffers were appended -/
  | caught (mapped : Nat) : MapOutcome
  /-- an exception of another class (e.g. `OSError` from an ioctl) escapes
      `__setup_capture_buffers` after `mapped` buffers were appended -/
  | escape (mapped : Nat) : MapOutcome
deriving Repr, DecidableEq

/-- Outcomes of the external calls made during one `captureThread.run`. -/
structure CapEnv where
  /-- `self.capDev is not None` -/
  devPresent : Bool
  /-- `self.capFrame` -/
  capFrame : Int
  /-- VIDIOC_REQBUFS(bufCount) succeeds -/
  reqOk : Bool
  /-- buffer count granted by a successful VIDIOC_REQBUFS -/
  grantCount : Nat
  /-- outcome of the query/map/queue loop -/
  mapOutcome : MapOutcome
  /-- VIDIOC_STREAMON succeeds (failure is caught in `__stream_on`) -/
  streamOnOk : Bool
  /-- an exception escapes `__reach_target_frame` (e.g. from `select`) -/
  reachEscape : Bool
  /-- some dequeue/requeue call inside `__reach_target_frame` marked the
      device broken before the loop returned -/
  brokenDuringReach : Bool
  /-- return value of `__reach_target_frame` (`0`, `-1`, `-2` or `-3`) -/
  reachCode : Int
  /-- `Image.open` succeeds in `__load_image_from_buffer` (its failure is
      caught there and leaves `theFrame = None`) -/
  loadOk : Bool
  /-- an exception of a class not in `__save_frame`'s `except` lists escapes
      it (only possible when a frame was loaded) -/
  saveEscape : Bool
  /-- the final VIDIOC_QBUF of the retained buffer succeeds (failure is
      caught in `__requeue_frame`, which marks the device broken) -/
  requeueOk : Bool
  /-- VIDIOC_REQBUFS(0) succeeds in `__release_capture_buffers` -/
  releaseOk : Bool
deriving Repr, DecidableEq

/-- The capture-thread state touched by one `run` call. -/
structure CapState where
  /-- number of open memory maps in `self.buffers` -/
  buffers : Nat
  /-- the driver still holds a buffer allocation from a VIDIOC_REQBUFS -/
  alloc : Bool
  /-- `self.req` (`none`, or the granted count) -/
  reqCount : Option Nat
  /-- `self.brokenRx` -/
  brokenRx : Bool
  /-- `self.bufToSave is not None` -/
  bufToSave : Bool
  /-- `self.theFrame is not None` -/
  theFrame : Bool
deriving Repr, DecidableEq

/-- `captureThread.set_capture_device`: store the device and set
`self.brokenRx = (self.capDev is not None)`. -/
def set_capture_device (devPresent : Bool) (st : CapState) : CapState :=
  { st with brokenRx := devPresent }

/-- `captureThread.receive_broken` -/
def receive_broken (st : CapState) : Bool :=
  st.brokenRx

/-- `captureThread.__close_capture_buffers`: close every map, clear the list. -/
def close_capture_buffers (st : CapState) : CapState :=
  { st with buffers := 0 }

/-- `captureThread.__release_capture_buffers`: VIDIOC_REQBUFS(0); on success
the driver drops the allocation and `self.req` ends `None`; on a caught
`OSError` only `self.req` is cleared. -/
def release_capture_buffers (e : CapEnv) (st : CapState) : CapState :=
  if e.releaseOk then { st with alloc := false, reqCount := none }
  else { st with reqCount := none }

/-- `captureThread.__setup_capture_buffers`: release any old allocation,
request `bufCount` buffers, then query/map/queue each granted buffer.  A
caught `TypeError`/`ValueError` closes every buffer mapped so far and marks
the device broken; any other exception escapes to the caller. -/
def setup_capture_buffers (e : CapEnv) (st : CapState) : Except CapState CapState :=
  let st1 := release_capture_buffers e st
  let st2 := if e.reqOk then
               { st1 with reqCount := some e.grantCount,
                          alloc := decide (e.grantCount > 0) }
             else { st1 with reqCount := none }
  if st2.reqCount.isSome then
    match e.mapOutcome with
    | .allOk => .ok { st2 with buffers := st2.buffers + e.grantCount }
    | .caught mapped =>
        .ok { close_capture_buffers { st2 with buffers := st2.buffers + mapped }
              with brokenRx := true }
    | .escape mapped => .error { st2 with buffers := st2.buffers + mapped }
  else
    .ok st2

/-- `run`'s `except Exception` handler: close the capture buffers and release
the driver allocation. -/
def runExceptionPath (e : CapEnv) (st : CapState) : CapState :=
  release_capture_buffers e (close_capture_buffers st)

/-- The streaming part of `run`'s `try` block, entered once buffers are
requested, mapped and queued (`self.req is not None` and
`len(self.buffers) > 0`). -/
def runStreaming (e : CapEnv) (st1 : CapState) : CapState :=
  let st2 := if e.streamOnOk then st1 else { st1 with brokenRx := true }
  if e.reachEscape then runExceptionPath e st2
  else
    let st3 := if e.brokenDuringReach then { st2 with brokenRx := true }
               else st2
    if e.reachCode = 0 then
      -- target reached: `self.bufToSave` holds the retained buffer
      let st4 := { st3 with bufToSave := true, theFrame := e.loadOk }
      if e.saveEscape = true ∧ e.loadOk = true then runExceptionPath e st4
      else
        let st5 := if e.requeueOk then st4
                   else { st4 with brokenRx := true }
        let st6 := { st5 with bufToSave := false, brokenRx := false }
        release_capture_buffers e (close_capture_buffers st6)
    else
      release_capture_buffers e (close_capture_buffers st3)

/-- The remainder of `run`'s `try` block after `__setup_capture_buffers`,
together with the `except Exception` handler for exceptions escaping the
setup. -/
def runAfterSetup (e : CapEnv) : Except CapState CapState → CapState
  | .error st => runExceptionPath e st
  | .ok st1 =>
    if st1.reqCount.isSome then
      if st1.buffers > 0 then
        runStreaming e st1
      else
        -- `"No capture buffers"`: request succeeded but nothing is mapped
        st1
    else
      st1

/-- `captureThread.run`: one full capture cycle of the thread entry point. -/
def runCycle (e : CapEnv) (st0 : CapState) : CapState :=
  if e.devPresent = true ∧ e.capFrame > 0 then
    runAfterSetup e (setup_capture_buffers e st0)
  else
    st0

lemma close_capture_buffers_fields (st : CapState) :
    (close_capture_buffers st).buffers = 0 ∧
    (close_capture_buffers st).alloc = st.alloc ∧
    (close_capture_buffers st).brokenRx = st.brokenRx := by
  simp [close_capture_buffers]

lemma release_capture_buffers_fields (e : CapEnv) (st : CapState) :
    (release_capture_buffers e st).buffers = st.buffers ∧
    (release_capture_buffers e st).brokenRx = st.brokenRx ∧
    (release_capture_buffers e st).alloc = (if e.releaseOk then false else st.alloc) := by
  unfold release_capture_buffers
  split <;> simp_all

lemma runExceptionPath_fields (e : CapEnv) (st : CapState) :
    (runExceptionPath e st).buffers = 0 ∧
    (runExceptionPath e st).brokenRx = st.brokenRx ∧
    (runExceptionPath e st).alloc = (if e.releaseOk then false else st.alloc) := by
  unfold runExceptionPath
  have h1 := release_capture_buffers_fields e (close_capture_buffers st)
  have h2 := close_capture_buffers_fields st
  refine ⟨by rw [h1.1, h2.1], by rw [h1.2.1, h2.2.2], by rw [h1.2.2, h2.2.1]⟩

lemma setup_eq_of_reqFail (e : CapEnv) (st : CapState) (h : e.reqOk = false) :
    setup_capture_buffers e st =
      .ok ⟨st.buffers, if e.releaseOk then false else st.alloc, none,
           st.brokenRx, st.bufToSave, st.theFrame⟩ := by
  unfold setup_capture_buffers release_capture_buffers
  split <;> simp_all

lemma setup_eq_of_allOk (e : CapEnv) (st : CapState) (h1 : e.reqOk = true)
    (h2 : e.mapOutcome = MapOutcome.allOk) :
    setup_capture_buffers e st =
      .ok ⟨st.buffers + e.grantCount, decide (e.grantCount > 0),
           some e.grantCount, st.brokenRx, st.bufToSave, st.theFrame⟩ := by
  unfold setup_capture_buffers release_capture_buffers
  rw [h2]
  split <;> simp_all

lemma setup_eq_of_caught (e : CapEnv) (st : CapState) (m : Nat)
    (h1 : e.reqOk = true) (h2 : e.mapOutcome = MapOutcome.caught m) :
    setup_capture_buffers e st =
      .ok ⟨0, decide (e.grantCount > 0), some e.grantCount,
           true, st.bufToSave, st.theFrame⟩ := by
  unfold setup_capture_buffers release_capture_buffers close_capture_buffers
  rw [h2]
  split <;> simp_all

lemma setup_eq_of_escape (e : CapEnv) (st : CapState) (m : Nat)
    (h1 : e.reqOk = true) (h2 : e.mapOutcome = MapOutcome.escape m) :
    setup_capture_buffers e st =
      .error ⟨st.buffers + m, decide (e.grantCount > 0), some e.grantCount,
              st.brokenRx, st.bufToSave, st.theFrame⟩ := by
  unfold setup_capture_buffers release_capture_buffers
  rw [h2]
  split <;> simp_all

lemma runAfterSetup_error (e : CapEnv) (st : CapState) :
    runAfterSetup e (.error st) = runExceptionPath e st := rfl

lemma runAfterSetup_ok_stream (e : CapEnv) (st1 : CapState)
    (h1 : st1.reqCount.isSome = true) (h2 : st1.buffers > 0) :
    runAfterSetup e (.ok st1) = runStreaming e st1 := by
  show (if st1.reqCount.isSome = true then
          if st1.buffers > 0 then runStreaming e st1 else st1
        else st1) = runStreaming e st1
  rw [if_pos h1, if_pos h2]

lemma runAfterSetup_ok_nobuf (e : CapEnv) (st1 : CapState)
    (h2 : ¬ st1.buffers > 0) :
    runAfterSetup e (.ok st1) = st1 := by
  show (if st1.reqCount.isSome = true then
          if st1.buffers > 0 then runStreaming e st1 else st1
        else st1) = st1
  by_cases h1 : st1.reqCount.isSome = true
  · rw [if_pos h1, if_neg h2]
  · rw [if_neg h1]

lemma runAfterSetup_ok_noreq (e : CapEnv) (st1 : CapState)
    (h1 : st1.reqCount.isSome = false) :
    runAfterSetup e (.ok st1) = st1 := by
  show (if st1.reqCount.isSome = true then
          if st1.buffers > 0 then runStreaming e st1 else st1
        else st1) = st1
  rw [if_neg (by simp [h1])]

lemma runStreaming_buffers (e : CapEnv) (st1 : CapState) :
    (runStreaming e st1).buffers = 0 := by
  unfold runStreaming
  split_ifs <;>
    simp [runExceptionPath, release_capture_buffers, close_capture_buffers] <;>
    split_ifs <;> rfl

lemma runStreaming_alloc (e : CapEnv) (st1 : CapState) (h : e.releaseOk = true) :
    (runStreaming e st1).alloc = false := by
  unfold runStreaming
  split_ifs <;>
    simp [runExceptionPath, release_capture_buffers, close_capture_buffers, h]

lemma runStreaming_brokenRx (e : CapEnv) (st1 : CapState)
    (h : st1.brokenRx = true) :
    ((runStreaming e st1).brokenRx = false ↔
      (e.reachEscape = false ∧ e.reachCode = 0 ∧
       ¬(e.saveEscape = true ∧ e.loadOk = true))) := by
  unfold runStreaming
  split_ifs with h1 h2 h3 <;>
    simp_all [runExceptionPath, release_capture_buffers, close_capture_buffers] <;>
    split_ifs <;> simp_all

/-- The state a fresh `captureThread` starts from (class attributes:
`buffers = []`, `req = None`, `brokenRx = True`, `bufToSave = None`,
`theFrame = None`, no driver allocation). -/
def threadInitState : CapState :=
  ⟨0, false, none, true, false, false⟩

/-- A cycle in which every external call succeeds. -/
def happyEnv : CapEnv :=
  ⟨true, 5, true, 4, .allOk, true, false, false, 0, true, false, true, true⟩

/-- A cycle in which the third mmap raises a `ValueError`, which
`__setup_capture_buffers` catches, and every other external call succeeds. -/
def mapFailEnv : CapEnv :=
  ⟨true, 5, true, 4, .caught 2, true, false, false, 0, true, false, true, true⟩

/-- A cycle that reaches and retains the target frame but in which
`Image.open` fails (caught, `theFrame = None`) and the final requeue of the
retained buffer fails (caught, marks broken); all other calls succeed. -/
def loadFailEnv : CapEnv :=
  ⟨true, 5, true, 4, .allOk, true, false, false, 0, false, false, false, true⟩

/-- **C7 (amended).** For every capture cycle, every buffer that was
memory-mapped during the cycle has been closed by the time `run` returns,
leaving the buffer list empty; and the driver's hardware buffer allocation
has been released on every exit path except the one where the query/map/queue
loop fails with a caught `TypeError`/`ValueError` — on that path `run`
returns with the allocation still held (it is only released by the next
cycle's buffer setup). -/
theorem runCycle_closes_buffers (e : CapEnv) (st0 : CapState)
    (hb : st0.buffers = 0) (ha : st0.alloc = false) :
    (runCycle e st0).buffers = 0 ∧
    ((∀ m, e.mapOutcome ≠ MapOutcome.caught m) → e.releaseOk = true →
      (runCycle e st0).alloc = false) := by
  by_cases hrun : e.devPresent = true ∧ e.capFrame > 0
  · unfold runCycle
    rw [if_pos hrun]
    by_cases hreq : e.reqOk = true
    · rcases hmo : e.mapOutcome with _ | m | m
      · rw [setup_eq_of_allOk e st0 hreq hmo, hb]
        by_cases hgc : 0 < e.grantCount
        · rw [runAfterSetup_ok_stream e _ (by rfl) (by show 0 + e.grantCount > 0; omega)]
          exact ⟨runStreaming_buffers e _, fun _ hrel => runStreaming_alloc e _ hrel⟩
        · rw [runAfterSetup_ok_nobuf e _ (by show ¬ 0 + e.grantCount > 0; omega)]
          refine ⟨by show 0 + e.grantCount = 0; omega, fun _ _ => ?_⟩
          show decide (e.grantCount > 0) = false
          simp
          omega
      · rw [setup_eq_of_caught e st0 m hreq hmo,
          runAfterSetup_ok_nobuf e _ (by show ¬ (0 : Nat) > 0; omega)]
        exact ⟨rfl, fun hno _ => absurd rfl (hno m)⟩
      · rw [setup_eq_of_escape e st0 m hreq hmo, runAfterSetup_error]
        refine ⟨(runExceptionPath_fields e _).1, fun _ hrel => ?_⟩
        rw [(runExceptionPath_fields e _).2.2, if_pos hrel]
    · rw [setup_eq_of_reqFail e st0 (by simpa using hreq),
        runAfterSetup_ok_noreq e _ (by rfl)]
      refine ⟨hb, fun _ hrel => ?_⟩
      show (if e.releaseOk = true then false else st0.alloc) = false
      rw [if_pos hrel]
  · unfold runCycle
    rw [if_neg hrun]
    exact ⟨hb, fun _ _ => ha⟩

/-- **C7 (counterexample).** A failed cycle (mapping raises a caught
`ValueError` after two buffers) returns with the buffer list empty but the
device's hardware buffer allocation still held, refuting the claim that the
allocation is released by the time the cycle entry function returns on every
exit path. -/
theorem runCycle_alloc_leak_on_map_failure :
    (runCycle mapFailEnv threadInitState).buffers = 0 ∧
    (runCycle mapFailEnv threadInitState).alloc = true := by
  decide

/-- **C7 (witness).** The amended claim at a fully successful cycle. -/
theorem runCycle_closes_buffers_witness :
    (runCycle happyEnv threadInitState).buffers = 0 ∧
    (runCycle happyEnv threadInitState).alloc = false := by
  have h := runCycle_closes_buffers happyEnv threadInitState (by decide) (by decide)
  refine ⟨h.1, h.2 ?_ (by decide)⟩
  intro m hm
  simp [happyEnv] at hm

/-- **C10 (amended).** `receive_broken()` returns `True` immediately after
`set_capture_device` with a non-`None` device, and — starting from a broken
state — a cycle leaves it `False` exactly when the cycle ran (device present,
positive target frame), buffer request and mapping fully succeeded with at
least one buffer, `__reach_target_frame` returned 0 (the target frame was
retained) and no exception escaped `__save_frame`; success of the image load
and of the final requeue is *not* required. -/
theorem broken_flag_assert_and_clear (e : CapEnv) (st0 : CapState)
    (hb : st0.buffers = 0) (hbr : st0.brokenRx = true) :
    receive_broken (set_capture_device true st0) = true ∧
    ((runCycle e st0).brokenRx = false ↔
      (e.devPresent = true ∧ e.capFrame > 0 ∧ e.reqOk = true ∧
       e.mapOutcome = MapOutcome.allOk ∧ e.grantCount > 0 ∧
       e.reachEscape = false ∧ e.reachCode = 0 ∧
       ¬(e.saveEscape = true ∧ e.loadOk = true))) := by
  refine ⟨rfl, ?_⟩
  by_cases hrun : e.devPresent = true ∧ e.capFrame > 0
  · unfold runCycle
    rw [if_pos hrun]
    by_cases hreq : e.reqOk = true
    · rcases hmo : e.mapOutcome with _ | m | m
      · rw [setup_eq_of_allOk e st0 hreq hmo, hb]
        by_cases hgc : 0 < e.grantCount
        · rw [runAfterSetup_ok_stream e _ (by rfl) (by show 0 + e.grantCount > 0; omega)]
          rw [runStreaming_brokenRx e
            ⟨0 + e.grantCount, decide (e.grantCount > 0), some e.grantCount,
             st0.brokenRx, st0.bufToSave, st0.theFrame⟩ (by exact hbr)]
          constructor
          · rintro ⟨a, b, c⟩
            exact ⟨hrun.1, hrun.2, hreq, rfl, hgc, a, b, c⟩
          · rintro ⟨_, _, _, _, _, a, b, c⟩
            exact ⟨a, b, c⟩
        · rw [runAfterSetup_ok_nobuf e _ (by show ¬ 0 + e.grantCount > 0; omega)]
          constructor
          · intro hf
            have hf2 : st0.brokenRx = false := hf
            rw [hbr] at hf2
            cases hf2
          · rintro ⟨_, _, _, _, hg, _⟩
            exact absurd hg hgc
      · rw [setup_eq_of_caught e st0 m hreq hmo,
          runAfterSetup_ok_nobuf e _ (by show ¬ (0 : Nat) > 0; omega)]
        constructor
        · intro hf
          have hf2 : true = false := hf
          cases hf2
        · rintro ⟨_, _, _, hq, _⟩
          cases hq
      · rw [setup_eq_of_escape e st0 m hreq hmo, runAfterSetup_error]
        rw [(runExceptionPath_fields e _).2.1]
        constructor
        · intro hf
          have hf2 : st0.brokenRx = false := hf
          rw [hbr] at hf2
          cases hf2
        · rintro ⟨_, _, _, hq, _⟩
          cases hq
    · rw [setup_eq_of_reqFail e st0 (by simpa using hreq),
        runAfterSetup_ok_noreq e _ (by rfl)]
      constructor
      · intro hf
        have hf2 : st0.brokenRx = false := hf
        rw [hbr] at hf2
        cases hf2
      · rintro ⟨_, _, hq, _⟩
        exact absurd hq hreq
  · unfold runCycle
    rw [if_neg hrun]
    rw [hbr]
    constructor
    · intro hf
      cases hf
    · rintro ⟨hd, hc, _⟩
      exact absurd ⟨hd, hc⟩ hrun

/-- **C10 (counterexample).** A cycle that retains the target frame but whose
image load fails and whose final requeue of the retained buffer fails still
leaves `receive_broken()` returning `False`, refuting the claim that the
broken flag only becomes `False` after a cycle that *successfully* retains,
loads and requeues the target frame. -/
theorem broken_cleared_without_load_and_requeue :
    receive_broken (runCycle loadFailEnv (set_capture_device true threadInitState))
      = false ∧
    loadFailEnv.loadOk = false ∧ loadFailEnv.requeueOk = false := by
  decide

/-- **C10 (witness).** The amended claim at a fully successful cycle from the
fresh-thread state. -/
theorem broken_flag_assert_and_clear_witness :
    receive_broken (set_capture_device true threadInitState) = true ∧
    (runCycle happyEnv threadInitState).brokenRx = false := by
  have h := broken_flag_assert_and_clear happyEnv threadInitState
    (by decide) (by decide)
  exact ⟨h.1, h.2.mpr (by decide)⟩

/-! ## Frame statistics: `captureThread.__compute_frame_statistics`,
`captureThread.__mean_stat` and `captureThread.__save_frame` (csdCapture.py)

A decoded frame is its list of RGB pixels; the Pillow calls
(`convert("HSV")`, `ImageStat.Stat`) are modelled at pixel level. -/

/-- One RGB pixel of a decoded frame (Pillow 8-bit channels, as reals). -/
structure Pixel where
  r : ℝ
  g : ℝ
  b : ℝ

/-- A decoded frame: its pixels in raster order. -/
abbrev Frame := List Pixel

/-- The three statistics stored in `frameBrightness` / `frameContrast` /
`frameSaturation`. -/
structure FrameStatistics where
  brightness : ℝ
  contrast : ℝ
  saturation : ℝ

noncomputable section

/-- `captureThread.__mean_stat`: sum the entries while counting them and
divide; `0.0` for an empty list.  Pillow's per-band `ImageStat` means have the
same sum/count form, so this also models `hsvStat.mean[i]`. -/
def mean_stat (xs : List ℝ) : ℝ :=
  if xs.length > 0 then xs.sum / xs.length else 0

/-- The V band of Pillow's `convert("HSV")` (external library): the channel
maximum. -/
def hsvV (p : Pixel) : ℝ :=
  max p.r (max p.g p.b)

/-- The S band of Pillow's `convert("HSV")` (external library), scaled to the
0–255 byte range: `(max − min) · 255 / max`, and `0` for a black pixel. -/
def hsvS (p : Pixel) : ℝ :=
  let mx := max p.r (max p.g p.b)
  let mn := min p.r (min p.g p.b)
  if mx = 0 then 0 else (mx - mn) * 255 / mx

/-- A band's standard deviation as computed by Pillow's `ImageStat.Stat`
(external library): the square root of `mean of squares − square of mean`. -/
def bandStddev (xs : List ℝ) : ℝ :=
  Real.sqrt (mean_stat (xs.map (fun v => v ^ 2)) - (mean_stat xs) ^ 2)

/-- `captureThread.__compute_frame_statistics`: brightness is the mean of the
third HSV band (value), contrast is `__mean_stat` of the three RGB band
standard deviations, saturation is the mean of the second HSV band. -/
def compute_frame_statistics (img : Frame) : FrameStatistics :=
  { brightness := mean_stat (img.map hsvV)
    contrast := mean_stat [bandStddev (img.map Pixel.r),
                           bandStddev (img.map Pixel.g),
                           bandStddev (img.map Pixel.b)]
    saturation := mean_stat (img.map hsvS) }

/-- `captureThread.__save_frame`: compute the statistics of the loaded frame
first ("Get the frame statistics before considering a caption so that the
caption content doesn't pollute the statistics"), then — when a save file is
configured — draw the caption text onto the frame and save that image.
`drawCaption` stands for the whole `ImageDraw`/`ImageFont` composition,
`doSave` for `self.save_capture_frame`; the returned pair is (statistics
stored in the object, image handed to `Image.save`). -/
def save_frame (img : Frame) (drawCaption : Frame → Frame) (doSave : Bool) :
    FrameStatistics × Frame :=
  let stats := compute_frame_statistics img
  let saved := if doSave then drawCaption img else img
  (stats, saved)

end

/-- **C8.** For every decoded nonempty frame, the statistics computed by
`__save_frame` satisfy: brightness is the mean of the HSV value channel,
contrast is the mean over the three RGB channels of the per-channel standard
deviations, saturation is the mean of the HSV saturation channel; and the
statistics are those of the image *before* the caption is drawn — they do not
depend on the caption composition at all. -/
theorem save_frame_statistics_before_caption (img : Frame)
    (d1 d2 : Frame → Frame) (s1 s2 : Bool) (h : img ≠ []) :
    (save_frame img d1 s1).1 = (save_frame img d2 s2).1 ∧
    (save_frame img d1 s1).1.brightness = (img.map hsvV).sum / img.length ∧
    (save_frame img d1 s1).1.contrast =
      (bandStddev (img.map Pixel.r) + bandStddev (img.map Pixel.g) +
       bandStddev (img.map Pixel.b)) / 3 ∧
    (save_frame img d1 s1).1.saturation = (img.map hsvS).sum / img.length := by
  have hlen : (0 : Nat) < img.length := List.length_pos.mpr h
  refine ⟨rfl, ?_, ?_, ?_⟩
  · show mean_stat (img.map hsvV) = (img.map hsvV).sum / img.length
    rw [mean_stat, if_pos (by simpa using hlen)]
    simp
  · show mean_stat [bandStddev (img.map Pixel.r), bandStddev (img.map Pixel.g),
        bandStddev (img.map Pixel.b)] = _
    rw [mean_stat, if_pos (by simp)]
    simp
    ring
  · show mean_stat (img.map hsvS) = (img.map hsvS).sum / img.length
    rw [mean_stat, if_pos (by simpa using hlen)]
    simp

/-- **C8 (witness).** The statistics of a concrete two-pixel frame (one pure
red pixel, one black pixel), independent of two different caption drawers:
brightness 127.5, contrast 42.5, saturation 127.5. -/
theorem save_frame_statistics_before_caption_witness :
    (save_frame [⟨255, 0, 0⟩, ⟨0, 0, 0⟩] id true).1 =
      (save_frame [⟨255, 0, 0⟩, ⟨0, 0, 0⟩] (fun _ => []) false).1 ∧
    (save_frame [⟨255, 0, 0⟩, ⟨0, 0, 0⟩] id true).1.brightness = 255 / 2 ∧
    (save_frame [⟨255, 0, 0⟩, ⟨0, 0, 0⟩] id true).1.saturation = 255 / 2 := by
  have h := save_frame_statistics_before_caption
    ([⟨255, 0, 0⟩, ⟨0, 0, 0⟩] : Frame) id (fun _ => []) true false (by simp)
  refine ⟨h.1, ?_, ?_⟩
  · rw [h.2.1]
    simp [hsvV]
  · rw [h.2.2.2]
    simp [hsvS]

/-! ## Auto-exposure tuner: the damped delta law (csdevs.py)

`CSDevs.__compute_applied_delta` and its callers.  Python floats are reals;
`pow(x, p)` on nonnegative floats is real exponentiation (`Real.rpow`);
a raised-and-uncaught `ValueError` is `Except.error PyError.valueError`. -/

/-- The two exception classes raised and caught in the tuning code. -/
inductive PyError where
  | valueError : PyError
  | attributeError : PyError
deriving Repr, DecidableEq

/-- `CSDevs.is_frac`: `(aValue >= 0.0) and (aValue <= 1.0)`. -/
def is_frac (aValue : ℝ) : Prop :=
  0 ≤ aValue ∧ aValue ≤ 1

noncomputable instance (aValue : ℝ) : Decidable (is_frac aValue) := by
  unfold is_frac
  infer_instance

/-- The signed damped delta of `__compute_applied_delta` (csdevs.py lines
2069–2076): `dSign * pow(abs(frmDeltaFrac), deltaPower)`. -/
noncomputable def raw_delta (frmFrac tgtFrac deltaPower : ℝ) : ℝ :=
  (if tgtFrac - frmFrac ≥ 0 then (1 : ℝ) else -1) *
    |tgtFrac - frmFrac| ^ deltaPower

/-- The body of `CSDevs.__compute_applied_delta` (csdevs.py lines 2069–2100),
run when all three inputs pass the `is_frac` guard: take the signed damped
delta; if the *absolute value* of the prospective new control fraction is not
itself a fraction, fall back to half the remaining distance to the bound the
new fraction exceeds. -/
noncomputable def applied_delta_body (frmFrac tgtFrac ctrlFrac deltaPower : ℝ) : ℝ :=
  let dCtrlFrac := raw_delta frmFrac tgtFrac deltaPower
  let newCtrlFrac := ctrlFrac + dCtrlFrac
  if ¬ is_frac |newCtrlFrac| then
    if newCtrlFrac > 1 then (1 - ctrlFrac) / 2
    else if newCtrlFrac < 0 then ctrlFrac / 2
    else dCtrlFrac
  else dCtrlFrac

/-- `CSDevs.__compute_applied_delta`: the guarded entry point — inputs
outside [0,1] raise `ValueError`. -/
noncomputable def compute_applied_delta (frmFrac tgtFrac ctrlFrac deltaPower : ℝ) :
    Except PyError ℝ :=
  if is_frac frmFrac ∧ is_frac tgtFrac ∧ is_frac ctrlFrac then
    .ok (applied_delta_body frmFrac tgtFrac ctrlFrac deltaPower)
  else
    .error .valueError

lemma raw_delta_nonneg_eq {f t : ℝ} (p : ℝ) (h : t - f ≥ 0) :
    raw_delta f t p = |t - f| ^ p := by
  unfold raw_delta
  rw [if_pos h, one_mul]

lemma raw_delta_neg_eq {f t : ℝ} (p : ℝ) (h : ¬ t - f ≥ 0) :
    raw_delta f t p = -(|t - f| ^ p) := by
  unfold raw_delta
  rw [if_neg h, neg_one_mul]

lemma rpow_abs_le_one {d p : ℝ} (hd : |d| ≤ 1) (hp : 0 ≤ p) :
    |d| ^ p ≤ 1 :=
  Real.rpow_le_one (abs_nonneg d) hd hp

lemma rpow_abs_nonneg (d p : ℝ) : (0 : ℝ) ≤ |d| ^ p :=
  Real.rpow_nonneg (abs_nonneg d) p

/-- For valid inputs and a nonnegative damping power, the body reduces to:
the raw damped delta, except that when adding it to the control fraction
exceeds 1 the result is half the distance to 1.  In particular the
`newCtrlFrac < 0` fallback branch is unreachable: the new fraction is always
≥ −1, so its absolute value passes the `is_frac` test whenever the delta is
negative. -/
lemma applied_delta_body_eq (frmFrac tgtFrac ctrlFrac deltaPower : ℝ)
    (h1 : is_frac frmFrac) (h2 : is_frac tgtFrac) (h3 : is_frac ctrlFrac)
    (hp : 0 ≤ deltaPower) :
    applied_delta_body frmFrac tgtFrac ctrlFrac deltaPower =
      (if ctrlFrac + raw_delta frmFrac tgtFrac deltaPower > 1
       then (1 - ctrlFrac) / 2
       else raw_delta frmFrac tgtFrac deltaPower) := by
  obtain ⟨h1a, h1b⟩ := h1
  obtain ⟨h2a, h2b⟩ := h2
  obtain ⟨h3a, h3b⟩ := h3
  have hd : |tgtFrac - frmFrac| ≤ 1 := by
    rw [abs_le]
    constructor <;> linarith
  have hpow : |tgtFrac - frmFrac| ^ deltaPower ≤ 1 := rpow_abs_le_one hd hp
  have hpow0 : (0 : ℝ) ≤ |tgtFrac - frmFrac| ^ deltaPower :=
    rpow_abs_nonneg _ _
  unfold applied_delta_body
  by_cases hs : tgtFrac - frmFrac ≥ 0
  · rw [raw_delta_nonneg_eq deltaPower hs]
    by_cases hover : ctrlFrac + |tgtFrac - frmFrac| ^ deltaPower > 1
    · have hnf : ¬ is_frac |ctrlFrac + |tgtFrac - frmFrac| ^ deltaPower| := by
        rw [is_frac, abs_of_nonneg (by linarith)]
        push_neg
        intro
        linarith
      rw [if_pos hnf, if_pos hover, if_pos hover]
    · have hf : is_frac |ctrlFrac + |tgtFrac - frmFrac| ^ deltaPower| := by
        rw [is_frac, abs_of_nonneg (by linarith)]
        constructor <;> linarith
      rw [if_neg (not_not_intro hf), if_neg hover]
  · rw [raw_delta_neg_eq deltaPower hs]
    have hle : ctrlFrac + -(|tgtFrac - frmFrac| ^ deltaPower) ≤ 1 := by linarith
    have hge : (-1 : ℝ) ≤ ctrlFrac + -(|tgtFrac - frmFrac| ^ deltaPower) := by
      linarith
    have hf : is_frac |ctrlFrac + -(|tgtFrac - frmFrac| ^ deltaPower)| := by
      rw [is_frac]
      refine ⟨abs_nonneg _, ?_⟩
      rw [abs_le]
      constructor <;> linarith
    rw [if_neg (not_not_intro hf), if_neg (by linarith)]

/-- **C2.** Evaluating `__compute_applied_delta` at the valid input
`frmFrac = 0.9`, `tgtFrac = 0`, `ctrlFrac = 0.1`, `deltaPower = 1`: the
damped delta is −0.9, the prospective new control fraction
`0.1 − 0.9 = −0.8` leaves [0,1] below 0, yet the function returns the raw
delta −0.9 instead of the fallback `ctrlFrac/2`-sized step the spec
describes, because the guard tests `is_frac(abs(newCtrlFrac))` and
`abs(−0.8) = 0.8` *is* a fraction — the `newCtrlFrac < 0.0` fallback branch
written in the code is dead. -/
theorem compute_applied_delta_no_lower_fallback :
    compute_applied_delta (9 / 10) 0 (1 / 10) 1 = .ok (-(9 / 10)) ∧
    ¬ is_frac ((1 / 10) + -(9 / 10)) := by
  have habs : |(0 : ℝ) - 9 / 10| = 9 / 10 := by
    rw [abs_of_nonpos (by norm_num)]
    norm_num
  have hraw : raw_delta (9 / 10) 0 1 = -(9 / 10) := by
    rw [raw_delta_neg_eq 1 (by norm_num), habs, Real.rpow_one]
  constructor
  · unfold compute_applied_delta
    rw [if_pos ⟨by rw [is_frac]; norm_num, by rw [is_frac]; norm_num,
      by rw [is_frac]; norm_num⟩]
    rw [applied_delta_body_eq _ _ _ _ (by rw [is_frac]; norm_num)
      (by rw [is_frac]; norm_num) (by rw [is_frac]; norm_num) (by norm_num)]
    rw [hraw, if_neg (by norm_num)]
  · rw [is_frac]
    push_neg
    intro h
    norm_num at h

/-- **C4 (counterexample).** Same control fraction 0.2, same damping power 1:
the frame delta 0.7 yields applied delta 0.7, but the larger frame delta 0.9
crosses the upper fallback (0.2 + 0.9 > 1) and yields applied delta
(1 − 0.2)/2 = 0.4 — strictly smaller in absolute value, refuting
monotonicity as claimed. -/
theorem applied_delta_not_monotone :
    compute_applied_delta (2 / 10) (9 / 10) (2 / 10) 1 = .ok (7 / 10) ∧
    compute_applied_delta (5 / 100) (95 / 100) (2 / 10) 1 = .ok (4 / 10) ∧
    |(9 / 10 : ℝ) - 2 / 10| < |(95 / 100 : ℝ) - 5 / 100| ∧
    |(4 / 10 : ℝ)| < |(7 / 10 : ℝ)| := by
  have h1 : raw_delta (2 / 10) (9 / 10) 1 = 7 / 10 := by
    rw [raw_delta_nonneg_eq 1 (by norm_num),
      abs_of_nonneg (by norm_num : (0:ℝ) ≤ 9 / 10 - 2 / 10), Real.rpow_one]
    norm_num
  have h2 : raw_delta (5 / 100) (95 / 100) 1 = 9 / 10 := by
    rw [raw_delta_nonneg_eq 1 (by norm_num),
      abs_of_nonneg (by norm_num : (0:ℝ) ≤ 95 / 100 - 5 / 100), Real.rpow_one]
    norm_num
  refine ⟨?_, ?_, by rw [abs_of_nonneg, abs_of_nonneg] <;> norm_num,
    by rw [abs_of_nonneg, abs_of_nonneg] <;> norm_num⟩
  · unfold compute_applied_delta
    rw [if_pos ⟨by rw [is_frac]; norm_num, by rw [is_frac]; norm_num,
      by rw [is_frac]; norm_num⟩]
    rw [applied_delta_body_eq _ _ _ _ (by rw [is_frac]; norm_num)
      (by rw [is_frac]; norm_num) (by rw [is_frac]; norm_num) (by norm_num)]
    rw [h1, if_neg (by norm_num)]
  · unfold compute_applied_delta
    rw [if_pos ⟨by rw [is_frac]; norm_num, by rw [is_frac]; norm_num,
      by rw [is_frac]; norm_num⟩]
    rw [applied_delta_body_eq _ _ _ _ (by rw [is_frac]; norm_num)
      (by rw [is_frac]; norm_num) (by rw [is_frac]; norm_num) (by norm_num)]
    rw [h2, if_pos (by norm_num)]
    norm_num

/-- **C4 (amended).** For a fixed valid control fraction, a fixed positive
damping power and two frame deltas of the same sign with `|d1| ≤ |d2|`, the
applied delta satisfies `|out1| ≤ |out2|` — *provided* the larger delta does
not push the control fraction past 1 (a condition only needed for
nonnegative deltas; for negative deltas the lower-bound fallback is dead
code, so the raw damped delta is always returned). -/
theorem applied_delta_monotone (f1 t1 f2 t2 c p : ℝ)
    (hf1 : is_frac f1) (ht1 : is_frac t1) (hf2 : is_frac f2) (ht2 : is_frac t2)
    (hc : is_frac c) (hp : 0 < p)
    (hsign : (0 ≤ t1 - f1 ∧ 0 ≤ t2 - f2) ∨ (t1 - f1 ≤ 0 ∧ t2 - f2 ≤ 0))
    (habs : |t1 - f1| ≤ |t2 - f2|)
    (hbound : 0 ≤ t2 - f2 → c + |t2 - f2| ^ p ≤ 1) :
    |applied_delta_body f1 t1 c p| ≤ |applied_delta_body f2 t2 c p| ∧
    compute_applied_delta f1 t1 c p = .ok (applied_delta_body f1 t1 c p) ∧
    compute_applied_delta f2 t2 c p = .ok (applied_delta_body f2 t2 c p) := by
  have hmono : |t1 - f1| ^ p ≤ |t2 - f2| ^ p :=
    Real.rpow_le_rpow (abs_nonneg _) habs (le_of_lt hp)
  have hpow1 : (0 : ℝ) ≤ |t1 - f1| ^ p := rpow_abs_nonneg _ _
  have hpow2 : (0 : ℝ) ≤ |t2 - f2| ^ p := rpow_abs_nonneg _ _
  refine ⟨?_, ?_, ?_⟩
  · rw [applied_delta_body_eq f1 t1 c p hf1 ht1 hc (le_of_lt hp),
      applied_delta_body_eq f2 t2 c p hf2 ht2 hc (le_of_lt hp)]
    rcases hsign with ⟨hs1, hs2⟩ | ⟨hs1, hs2⟩
    · have hb2 := hbound hs2
      rw [raw_delta_nonneg_eq p (by linarith), raw_delta_nonneg_eq p (by linarith)]
      rw [if_neg (by linarith), if_neg (by linarith)]
      rw [abs_of_nonneg hpow1, abs_of_nonneg hpow2]
      exact hmono
    · by_cases hz1 : t1 - f1 = 0
      · have hE1 : |t1 - f1| ^ p = 0 := by
          rw [hz1, abs_zero]
          exact Real.zero_rpow (ne_of_gt hp)
        rw [raw_delta_nonneg_eq p (by rw [hz1]), hE1]
        rw [if_neg (by linarith [hc.2])]
        rw [abs_zero]
        exact abs_nonneg _
      · have hz1n : t1 - f1 < 0 := lt_of_le_of_ne hs1 hz1
        have hz2n : t2 - f2 < 0 := by
          rcases lt_or_eq_of_le hs2 with h | h
          · exact h
          · exfalso
            rw [h, abs_zero] at habs
            have : |t1 - f1| = 0 := le_antisymm habs (abs_nonneg _)
            rw [abs_eq_zero] at this
            exact hz1 this
        rw [raw_delta_neg_eq p (by linarith), raw_delta_neg_eq p (by linarith)]
        rw [if_neg (by linarith [hc.2]), if_neg (by linarith [hc.2])]
        rw [abs_neg, abs_neg, abs_of_nonneg hpow1, abs_of_nonneg hpow2]
        exact hmono
  · unfold compute_applied_delta
    rw [if_pos ⟨hf1, ht1, hc⟩]
  · unfold compute_applied_delta
    rw [if_pos ⟨hf2, ht2, hc⟩]

/-- **C4 (witness).** The amended monotonicity at `p = 1`, `c = 0.1`, frame
deltas 0.1 and 0.2. -/
theorem applied_delta_monotone_witness :
    |applied_delta_body (5 / 10) (6 / 10) (1 / 10) 1| ≤
      |applied_delta_body (4 / 10) (6 / 10) (1 / 10) 1| ∧
    compute_applied_delta (5 / 10) (6 / 10) (1 / 10) 1 =
      .ok (applied_delta_body (5 / 10) (6 / 10) (1 / 10) 1) := by
  have h := applied_delta_monotone (5 / 10) (6 / 10) (4 / 10) (6 / 10) (1 / 10) 1
    (by rw [is_frac]; norm_num) (by rw [is_frac]; norm_num)
    (by rw [is_frac]; norm_num) (by rw [is_frac]; norm_num)
    (by rw [is_frac]; norm_num) (by norm_num)
    (by left; constructor <;> norm_num)
    (by rw [abs_of_nonneg (by norm_num), abs_of_nonneg (by norm_num)]; norm_num)
    (by intro
        rw [abs_of_nonneg (by norm_num), Real.rpow_one]
        norm_num)
  exact ⟨h.1, h.2.1⟩

/-! ## Property masking: `CSDevs.__property_masked` (csdevs.py lines 3533–3562) -/

/-- `CSDevs.__property_masked`: a non-Brightness property is masked when the
last Brightness lies outside its target band and is further from the band
midpoint `tBright = minBright + (maxBright − minBright)/2` than *half the
midpoint itself* (`tBright / 2`); Saturation is additionally masked by the
same rule applied to Contrast.  The frame's last values and the preferred
targets are the object state read by the function. -/
def property_masked (property : String)
    (lBright minBright maxBright lCont minCont maxCont : ℝ) : Prop :=
  if property ≠ "Brightness" then
    (let tBright := minBright + (maxBright - minBright) / 2
     let dBright := |tBright - lBright|
     ((lBright < minBright ∨ lBright > maxBright) ∧ dBright > tBright / 2)) ∨
    (property = "Saturation" ∧
      (let tCont := minCont + (maxCont - minCont) / 2
       let dCont := |tCont - lCont|
       ((lCont < minCont ∨ lCont > maxCont) ∧ dCont > tCont / 2)))
  else
    False

/-- **C3 (counterexample).** Brightness band [100, 140], last Brightness 80:
80 lies outside the band by 20, more than half the band's half-width
(20/2 = 10), so the claim says Contrast is masked — but the code compares
the distance to the midpoint (|120 − 80| = 40) against half the *midpoint*
(120/2 = 60) and does not mask. -/
theorem property_masked_claim_false_at_80 :
    ¬ property_masked "Contrast" 80 100 140 0 0 0 ∧
    (80 : ℝ) < 100 ∧ (100 - 80 : ℝ) > ((140 - 100) / 2) / 2 := by
  refine ⟨?_, by norm_num, by norm_num⟩
  rw [property_masked, if_pos (by decide)]
  rintro (h | ⟨hs, _⟩)
  · obtain ⟨h1, h2⟩ := h
    rw [abs_of_nonneg (by norm_num)] at h2
    norm_num at h2
  · exact absurd hs (by decide)

/-- **C3 (amended).** Contrast tuning is skipped exactly when the last
Brightness value lies outside the Brightness target band [minTarget,
maxTarget] *and* its distance from the band midpoint exceeds half the
midpoint (not half the band's half-width); Saturation is skipped under the
same rule applied to the last Contrast value, and additionally whenever the
Brightness rule fires (Contrast masked by Brightness). -/
theorem property_masked_iff (lB minB maxB lC minC maxC : ℝ) :
    (property_masked "Contrast" lB minB maxB lC minC maxC ↔
      ((lB < minB ∨ lB > maxB) ∧
        |(minB + maxB) / 2 - lB| > ((minB + maxB) / 2) / 2)) ∧
    (property_masked "Saturation" lB minB maxB lC minC maxC ↔
      (((lB < minB ∨ lB > maxB) ∧
         |(minB + maxB) / 2 - lB| > ((minB + maxB) / 2) / 2) ∨
       ((lC < minC ∨ lC > maxC) ∧
         |(minC + maxC) / 2 - lC| > ((minC + maxC) / 2) / 2))) := by
  have hB : minB + (maxB - minB) / 2 = (minB + maxB) / 2 := by ring
  have hC : minC + (maxC - minC) / 2 = (minC + maxC) / 2 := by ring
  constructor
  · rw [property_masked, if_pos (by decide)]
    rw [hB]
    constructor
    · rintro (h | ⟨h, _⟩)
      · exact h
      · exact absurd h (by decide)
    · intro h
      exact Or.inl h
  · rw [property_masked, if_pos (by decide)]
    rw [hB, hC]
    constructor
    · rintro (h | ⟨_, h⟩)
      · exact Or.inl h
      · exact Or.inr h
    · rintro (h | h)
      · exact Or.inl h
      · exact Or.inr ⟨rfl, h⟩

/-! ## Tuner selection and range handling (csdevs.py)

`CSDevs.__property_value_as_fraction`, `__property_fraction_as_value`,
`__limit_property_value_to_range`, `set_named_control_limits`,
`use_named_control_all_properties_hi_limit` / `_lo_limit`,
`__can_tune_property`, `__guide_control_value_to_current_range`,
`__limit_control_value_to_current_range`, `__get_control_tune_power`,
`__tune_control_value_by_ID` and the per-candidate body of
`__tune_property_by_nameA`. -/

/-- Python `int()` on a float: truncation toward zero. -/
noncomputable def pyInt (x : ℝ) : ℤ :=
  if 0 ≤ x then ⌊x⌋ else ⌈x⌉

/-- `CSDevs.__property_range` -/
noncomputable def property_range (fMin fMax : ℝ) : ℝ :=
  if fMin > fMax then fMin - fMax else fMax - fMin

/-- `CSDevs.__property_zero_base` -/
noncomputable def property_zero_base (fValue fMin : ℝ) (toZero : Bool) :
    Except PyError ℝ :=
  if toZero = true ∧ fValue < fMin then .error .valueError
  else if toZero = true then .ok (fValue - fMin)
  else .ok (fValue + fMin)

/-- `CSDevs.__property_value_as_fraction` -/
noncomputable def property_value_as_fraction (fValue fMin fMax : ℝ) :
    Except PyError ℝ :=
  let fRange := property_range fMin fMax
  if fRange = 0 ∨ fValue > fMax then .error .valueError
  else
    match property_zero_base fValue fMin true with
    | .error e => .error e
    | .ok zValue => .ok (zValue / fRange)

/-- `CSDevs.__property_fraction_as_value` -/
noncomputable def property_fraction_as_value (fFrac fMin fMax : ℝ) :
    Except PyError ℝ :=
  if fFrac < 0 ∨ fFrac > 1 then .error .valueError
  else
    match property_zero_base (fFrac * property_range fMin fMax) fMin false with
    | .error e => .error e
    | .ok fValue => .ok fValue

/-- `CSDevs.__limit_property_value_to_range` -/
noncomputable def limit_property_value_to_range (fValue fMin fMax : ℝ) : ℝ :=
  if fValue < fMin then fMin
  else if fValue > fMax then fMax
  else fValue

/-- One entry of a `tuningControlSettings` list:
`(tuneProperty, ctrlName, rForce, rMin, rMax, negativeUse, encourageRange)`. -/
structure Tuner where
  tuneProperty : String
  ctrlName : String
  rForce : ℝ
  rMin : ℝ
  rMax : ℝ
  negativeUse : Bool
  encourageRange : Bool

/-- The limit members set by `set_named_control_limits`:
`loLimit`, `hiLimit`, `noClampLoLimit`, `noClampHiLimit`. -/
structure LimitsState where
  loLimit : ℝ
  hiLimit : ℝ
  noClampLoLimit : Option ℝ
  noClampHiLimit : Option ℝ

/-- `CSDevs.set_named_control_limits`: take the camera control's min/max
(`cam`, or the defaults when the control is unknown), remember them as the
no-clamp limits unless `encourageLimits` is set, then override with any
supplied min/max. -/
noncomputable def set_named_control_limits (cam : Option (ℝ × ℝ)) (mn mx : Option ℝ)
    (loDef hiDef : ℝ) (encourageLimits : Bool) : LimitsState :=
  let lo := match cam with | some c => c.1 | none => loDef
  let hi := match cam with | some c => c.2 | none => hiDef
  let nLo : Option ℝ := if encourageLimits = true then none else some lo
  let nHi : Option ℝ := if encourageLimits = true then none else some hi
  let lo := match mn with | some v => v | none => lo
  let hi := match mx with | some v => v | none => hi
  ⟨lo, hi, nLo, nHi⟩

/-- `CSDevs.use_named_control_all_properties_hi_limit`: raise `hiLimit` to
the largest `rMax` among the TOD's tuners sharing the control name. -/
noncomputable def use_named_control_all_properties_hi_limit (tuners : List Tuner)
    (ctrlName : String) (st : LimitsState) : LimitsState :=
  let newHi := tuners.foldl
    (fun h t => if t.ctrlName = ctrlName ∧ t.rMax > h then t.rMax else h)
    st.hiLimit
  { st with hiLimit := newHi }

/-- `CSDevs.use_named_control_all_properties_lo_limit`: lower `loLimit` to
the smallest `rMin` among the TOD's tuners sharing the control name. -/
noncomputable def use_named_control_all_properties_lo_limit (tuners : List Tuner)
    (ctrlName : String) (st : LimitsState) : LimitsState :=
  let newLo := tuners.foldl
    (fun l t => if t.ctrlName = ctrlName ∧ t.rMin < l then t.rMin else l)
    st.loLimit
  { st with loLimit := newLo }

/-- `CSDevs.__can_tune_property` (csdevs.py lines 3472–3511), including its
side effect of widening `hiLimit`/`loLimit` to the control's all-properties
limit when the control value already exceeds the tuner's bound in the needed
direction and `encourageLimits` is set. -/
noncomputable def can_tune_property (tuners : List Tuner) (ctrlName : String)
    (lastValue tgtVal ctrlVal : ℝ) (negativeEffect encourageLimits : Bool)
    (st : LimitsState) : Bool × LimitsState :=
  if lastValue < tgtVal then
    let st := if ctrlVal > st.hiLimit ∧ encourageLimits = true then
        use_named_control_all_properties_hi_limit tuners ctrlName st
      else st
    if negativeEffect = true then (decide (ctrlVal > st.loLimit), st)
    else (decide (ctrlVal < st.hiLimit), st)
  else if lastValue > tgtVal then
    let st := if ctrlVal < st.loLimit ∧ encourageLimits = true then
        use_named_control_all_properties_lo_limit tuners ctrlName st
      else st
    if negativeEffect = true then (decide (ctrlVal < st.hiLimit), st)
    else (decide (ctrlVal > st.loLimit), st)
  else
    (false, st)

/-- `CSDevs.__guide_control_value_to_current_range`: only configured when the
no-clamp limits are present (otherwise `AttributeError`, caught by the
caller, selects plain clamping); migrates an out-of-range value toward the
nearest preferred limit with the damped delta law at power 1.5. -/
noncomputable def guide_control_value_to_current_range (st : LimitsState)
    (iCtrl : ℝ) : Except PyError ℝ :=
  match st.noClampLoLimit, st.noClampHiLimit with
  | some nLo, some nHi =>
    if nLo ≤ st.loLimit ∧ nHi ≥ st.hiLimit then
      if iCtrl < st.loLimit ∨ iCtrl > st.hiLimit then
        let tgtVal := if iCtrl < st.loLimit then st.loLimit else st.hiLimit
        match property_value_as_fraction iCtrl nLo nHi,
              property_value_as_fraction tgtVal nLo nHi with
        | .ok ctrlFrac, .ok tgtFrac =>
          (match compute_applied_delta ctrlFrac tgtFrac ctrlFrac (3 / 2) with
           | .ok expFrac =>
             (match property_fraction_as_value (ctrlFrac + expFrac) nLo nHi with
              | .ok vCtrlNew => .ok ((pyInt vCtrlNew : ℤ) : ℝ)
              | .error _ => .error .attributeError)
           | .error e => .error e)
        | .error e, _ => .error e
        | _, .error e => .error e
      else
        .error .attributeError
    else
      .ok iCtrl
  | _, _ => .error .attributeError

/-- `CSDevs.__limit_control_value_to_current_range`: try guiding; on
`AttributeError` clamp into `[loLimit, hiLimit]` with two separate `if`s. -/
noncomputable def limit_control_value_to_current_range (st : LimitsState)
    (iCtrl : ℝ) : Except PyError ℝ :=
  match guide_control_value_to_current_range st iCtrl with
  | .ok v => .ok v
  | .error .attributeError =>
    let v1 := if iCtrl < st.loLimit then st.loLimit else iCtrl
    .ok (if v1 > st.hiLimit then st.hiLimit else v1)
  | .error .valueError => .error .valueError

/-- `CSDevs.__get_control_tune_power` (csdevs.py lines 2217–2245). -/
noncomputable def get_control_tune_power (itsDay : Bool)
    (imgProp ctrlName : String) (usePreferred : Bool) : ℝ :=
  let fastPow : ℝ := if itsDay = true then 1.05 else 1.1
  let slowPow : ℝ := if itsDay = true then 1.15 else 1.2
  if imgProp = "Brightness" ∧ (ctrlName = imgProp ∨ ctrlName = "Gain") ∧
      usePreferred = true then fastPow
  else if imgProp = "Contrast" ∧ ctrlName = imgProp ∧ usePreferred = true then
    fastPow
  else if imgProp = "Saturation" ∧ ctrlName = imgProp ∧ usePreferred = true then
    fastPow
  else slowPow

/-- The non-deterministic inputs of one `__tune_control_value_by_ID` call:
the time-of-day bucket and the two random draws used for the per-cycle delta
cap. -/
structure TuneEnv where
  /-- `self.lastTOD == self.kTuneDay` -/
  itsDay : Bool
  /-- `random.uniform(0.01, 0.15)` -/
  randUniform : ℝ
  /-- `random.randint(1, 15)` -/
  randInt : ℤ

/-- The repeated `try: __property_value_as_fraction … except ValueError`
pattern of `__tune_control_value_by_ID`: clamp to 0 below the minimum, to 1
above the maximum, re-raise otherwise. -/
noncomputable def frac_or_clamped (v lo hi : ℝ) : Except PyError ℝ :=
  match property_value_as_fraction v lo hi with
  | .ok x => .ok x
  | .error _ =>
    if v < lo then .ok 0
    else if v > hi then .ok 1
    else .error .valueError

/-- `CSDevs.__tune_control_value_by_ID` (csdevs.py lines 2267–2543) for an
integer camera control with value `ctrlVal` and range `[camMin, camMax]`
(`forceMin`/`forceMax` are `None` at every call site): fraction conversions,
damped delta, per-cycle delta cap, ±1 nudge, clamp to the camera range,
integer result. -/
noncomputable def tune_control_value_by_ID (env : TuneEnv)
    (ctrlVal camMin camMax vFrame tFrame rFrame : ℝ)
    (dNeg : Bool) (imgProp ctrlName : String) (prefMin prefMax : ℝ) :
    Except PyError ℝ := do
  let valFrac ← frac_or_clamped vFrame 1 rFrame
  let tgtFrac ← frac_or_clamped tFrame 1 rFrame
  let dFrameFrac0 := tgtFrac - valFrac
  let minCtrl := camMin
  let maxCtrl := camMax
  let deltaPair :=
    if minCtrl = maxCtrl then ((0 : ℝ), (0 : ℝ))
    else
      let ctrlRange := if minCtrl < maxCtrl then maxCtrl - minCtrl
                       else minCtrl - maxCtrl
      let lim : ℝ :=
        if ctrlRange > 15 then
          if ctrlRange ≤ 100 then ((pyInt (ctrlRange * env.randUniform) : ℤ) : ℝ)
          else ((env.randInt : ℤ) : ℝ)
        else 1
      (1 / ctrlRange, lim)
  let minCtrlDelta := deltaPair.1
  let dCtrlLimit := deltaPair.2
  let ivCtrl := pyInt ctrlVal
  let ctrlFrac ← frac_or_clamped ctrlVal minCtrl maxCtrl
  let usePower := get_control_tune_power env.itsDay imgProp ctrlName
    (decide (vFrame < prefMin ∨ vFrame > prefMax))
  let expFrac0 ← compute_applied_delta valFrac tgtFrac ctrlFrac usePower
  let dFrameFrac := if |dFrameFrac0| ≤ minCtrlDelta / 10 then (0 : ℝ)
                    else dFrameFrac0
  let expFrac := if |dFrameFrac0| ≤ minCtrlDelta / 10 then (0 : ℝ)
                 else expFrac0
  let res ←
    if dFrameFrac ≠ 0 then do
      let dCtrlFrac := if dNeg = true then ctrlFrac - expFrac
                       else ctrlFrac + expFrac
      let vCtrlNew ←
        match property_fraction_as_value dCtrlFrac minCtrl maxCtrl with
        | .ok v => Except.ok v
        | .error _ =>
          if dCtrlFrac < 0 then Except.ok minCtrl
          else if dCtrlFrac > 1 then Except.ok maxCtrl
          else Except.error PyError.valueError
      let dCtrlNew := |vCtrlNew - ctrlVal|
      let vCtrlNew2 :=
        if dCtrlNew > dCtrlLimit then
          if vCtrlNew ≥ ctrlVal then ((pyInt (ctrlVal + dCtrlLimit) : ℤ) : ℝ)
          else ((pyInt (ctrlVal - dCtrlLimit) : ℤ) : ℝ)
        else vCtrlNew
      pure (dCtrlFrac, vCtrlNew2)
    else
      pure (ctrlFrac, ctrlVal)
  let dCtrlFrac := res.1
  let vCtrlNew0 := res.2
  let vCtrlNew1 :=
    if pyInt vCtrlNew0 = ivCtrl then
      if dCtrlFrac ≠ ctrlFrac then
        if dCtrlFrac > ctrlFrac then vCtrlNew0 + 1 else vCtrlNew0 - 1
      else if dFrameFrac ≠ expFrac then
        if dFrameFrac > expFrac then vCtrlNew0 + 1 else vCtrlNew0 - 1
      else vCtrlNew0
    else vCtrlNew0
  let vCtrlNew2 := limit_property_value_to_range vCtrlNew1 minCtrl maxCtrl
  pure ((pyInt vCtrlNew2 : ℤ) : ℝ)

/-- One candidate considered by the rotation loop of
`__tune_property_by_nameA`: the tuner entry, the control's current setting
value (`aCtrl.value`) and the camera control's min/max (`none` when the
camera does not expose an integer control of that name). -/
structure Candidate where
  tuner : Tuner
  ctrlVal : ℝ
  cam : Option (ℝ × ℝ)

/-- The body of one iteration of `__tune_property_by_nameA`'s rotation loop
(csdevs.py lines 3619–3681) for candidate `c`: set the limits from the tuner,
ask `__can_tune_property`, and if tuning is possible compute the new value,
limit it to the current range and commit it unless it equals `lastValue`
(python `continue`) — `none` means this candidate commits nothing and the
rotation moves on (this also covers an exception escaping the computation,
which aborts the pass without committing).  `tgtVal` is the target-band
midpoint `tgtMin + (tgtMax − tgtMin)/2`, and the preferred targets passed to
`__tune_control_value_by_ID` are the same `tgtMin`/`tgtMax`. -/
noncomputable def candidate_commit (env : TuneEnv) (tuners : List Tuner)
    (property : String) (lastValue tgtMin tgtMax : ℝ) (c : Candidate) :
    Option ℝ :=
  let tgtVal := tgtMin + (tgtMax - tgtMin) / 2
  let st0 := set_named_control_limits c.cam (some c.tuner.rMin)
    (some c.tuner.rMax) 0 64 c.tuner.encourageRange
  let r := can_tune_property tuners c.tuner.ctrlName lastValue tgtVal
    c.ctrlVal c.tuner.negativeUse c.tuner.encourageRange st0
  if r.1 = true then
    match c.cam with
    | some cm =>
      match tune_control_value_by_ID env c.ctrlVal cm.1 cm.2 lastValue tgtVal
        256 c.tuner.negativeUse property c.tuner.ctrlName tgtMin tgtMax with
      | .ok aVal =>
        match limit_control_value_to_current_range r.2 aVal with
        | .ok vCtrl => if vCtrl = lastValue then none else some vCtrl
        | .error _ => none
      | .error _ => none
    | none => none
  else
    none

/-- The rotation loop of `__tune_property_by_nameA`: try the candidates the
round-robin cursor yields (one full rotation, first-seen index repeated ends
the loop with nothing committed) and commit the first usable one. -/
noncomputable def tune_property_rotation (env : TuneEnv) (tuners : List Tuner)
    (property : String) (lastValue tgtMin tgtMax : ℝ) :
    List Candidate → Option ℝ
  | [] => none
  | c :: rest =>
    match candidate_commit env tuners property lastValue tgtMin tgtMax c with
    | some v => some v
    | none => tune_property_rotation env tuners property lastValue tgtMin tgtMax rest

/-- `CSDevs.__tune_property_by_nameA`: nothing happens when the last frame
value of the property is unavailable (negative) or the property is masked;
otherwise the rotation loop decides which control setting (if any) is
committed via `replace_control_setting_by_ID`. -/
noncomputable def tune_property_by_nameA (env : TuneEnv) (tuners : List Tuner)
    (property : String) (cands : List Candidate) (masked : Bool)
    (lastValue tgtMin tgtMax : ℝ) : Option ℝ :=
  if lastValue ≥ 0 ∧ masked = false then
    tune_property_rotation env tuners property lastValue tgtMin tgtMax cands
  else
    none

lemma can_tune_property_at_target (tuners : List Tuner) (ctrlName : String)
    (v ctrlVal : ℝ) (negE encE : Bool) (st : LimitsState) :
    can_tune_property tuners ctrlName v v ctrlVal negE encE st = (false, st) := by
  unfold can_tune_property
  rw [if_neg (lt_irrefl v), if_neg (lt_irrefl v)]

lemma candidate_commit_at_target (env : TuneEnv) (tuners : List Tuner)
    (property : String) (lastValue tgtMin tgtMax : ℝ) (c : Candidate)
    (h : lastValue = tgtMin + (tgtMax - tgtMin) / 2) :
    candidate_commit env tuners property lastValue tgtMin tgtMax c = none := by
  unfold candidate_commit
  rw [show tgtMin + (tgtMax - tgtMin) / 2 = lastValue from h.symm]
  simp [can_tune_property_at_target]

lemma tune_property_rotation_at_target (env : TuneEnv) (tuners : List Tuner)
    (property : String) (lastValue tgtMin tgtMax : ℝ)
    (h : lastValue = tgtMin + (tgtMax - tgtMin) / 2) :
    ∀ cands : List Candidate,
      tune_property_rotation env tuners property lastValue tgtMin tgtMax cands
        = none
  | [] => rfl
  | c :: rest => by
    unfold tune_property_rotation
    rw [candidate_commit_at_target env tuners property lastValue tgtMin tgtMax c h]
    exact tune_property_rotation_at_target env tuners property lastValue
      tgtMin tgtMax h rest

/-- **C5.** If the last frame value of a property equals the target-band
midpoint exactly, the tuning pass for that property emits no control setting
(every candidate fails `__can_tune_property`, whose two branches both require
a strict inequality against the target), and the damped delta computed from
equal frame and target fractions is exactly 0. -/
theorem tune_at_target_zero_delta_no_setting (env : TuneEnv)
    (tuners : List Tuner) (property : String) (cands : List Candidate)
    (masked : Bool) (lastValue tgtMin tgtMax p : ℝ)
    (h : lastValue = tgtMin + (tgtMax - tgtMin) / 2) (hp : 0 < p) :
    tune_property_by_nameA env tuners property cands masked lastValue
      tgtMin tgtMax = none ∧
    (∀ f c : ℝ, is_frac f → is_frac c →
      compute_applied_delta f f c p = .ok 0) := by
  constructor
  · unfold tune_property_by_nameA
    split_ifs with hcond
    · exact tune_property_rotation_at_target env tuners property lastValue
        tgtMin tgtMax h cands
    · rfl
  · intro f c hf hc
    have hraw : raw_delta f f p = 0 := by
      rw [raw_delta_nonneg_eq p (by rw [sub_self])]
      rw [sub_self, abs_zero]
      exact Real.zero_rpow (ne_of_gt hp)
    unfold compute_applied_delta
    rw [if_pos ⟨hf, hf, hc⟩]
    rw [applied_delta_body_eq f f c p hf hf hc (le_of_lt hp)]
    rw [hraw, if_neg (by linarith [hc.2])]

/-- **C5 (witness).** A concrete pass at target band [110, 130] with last
value exactly 120: nothing is emitted and the delta at equal fractions is 0. -/
theorem tune_at_target_zero_delta_no_setting_witness :
    tune_property_by_nameA ⟨true, 1 / 20, 5⟩ [] "Brightness"
      [⟨⟨"Brightness", "Brightness", -1, 10, 50, false, true⟩, 30,
        some (0, 100)⟩]
      false 120 110 130 = none ∧
    compute_applied_delta (1 / 2) (1 / 2) (1 / 2) 1 = .ok 0 := by
  have h := tune_at_target_zero_delta_no_setting ⟨true, 1 / 20, 5⟩ []
    "Brightness"
    [⟨⟨"Brightness", "Brightness", -1, 10, 50, false, true⟩, 30,
      some (0, 100)⟩]
    false 120 110 130 1 (by norm_num) (by norm_num)
  exact ⟨h.1, h.2 (1 / 2) (1 / 2) (by rw [is_frac]; norm_num)
    (by rw [is_frac]; norm_num)⟩

lemma limit_clamp_of_no_noclamp (st : LimitsState) (x : ℝ)
    (h : st.noClampLoLimit = none) :
    limit_control_value_to_current_range st x =
      .ok (if (if x < st.loLimit then st.loLimit else x) > st.hiLimit
           then st.hiLimit
           else if x < st.loLimit then st.loLimit else x) := by
  unfold limit_control_value_to_current_range guide_control_value_to_current_range
  rw [h]

lemma can_tune_property_no_widen (tuners : List Tuner) (ctrlName : String)
    (lastValue tgtVal ctrlVal : ℝ) (negE : Bool) (st : LimitsState)
    (hhi : lastValue < tgtVal → ctrlVal ≤ st.hiLimit)
    (hlo : lastValue > tgtVal → st.loLimit ≤ ctrlVal) :
    (can_tune_property tuners ctrlName lastValue tgtVal ctrlVal negE true
      st).2 = st := by
  by_cases h1 : lastValue < tgtVal
  · have hng : ¬ ctrlVal > st.hiLimit := not_lt.mpr (hhi h1)
    simp [can_tune_property, h1, hng]
    split <;> rfl
  · by_cases h2 : lastValue > tgtVal
    · have hng : ¬ ctrlVal < st.loLimit := not_lt.mpr (hlo h2)
      simp [can_tune_property, h1, h2, hng]
      split <;> rfl
    · simp [can_tune_property, h1, h2]

/-- **C6 (amended).** For a Tuner with `encourageLimits = true` whose control
the camera exposes, the committed control value lies within the Tuner's
`[rangeMin, rangeMax]` *provided* the starting control value does not already
exceed the Tuner's bound in the direction the property must move (above
`rangeMax` when the property must increase, below `rangeMin` when it must
decrease) — in that case `__can_tune_property` widens the active limit to
another same-control Tuner's bound before the clamp.  (`getD rangeMin`
returns the committed value, or `rangeMin` when nothing is committed.) -/
theorem encourage_limits_bound (env : TuneEnv) (tuners : List Tuner)
    (property : String) (lastValue tgtMin tgtMax : ℝ) (c : Candidate)
    (henc : c.tuner.encourageRange = true)
    (hrange : c.tuner.rMin ≤ c.tuner.rMax)
    (hhi : lastValue < tgtMin + (tgtMax - tgtMin) / 2 →
      c.ctrlVal ≤ c.tuner.rMax)
    (hlo : lastValue > tgtMin + (tgtMax - tgtMin) / 2 →
      c.tuner.rMin ≤ c.ctrlVal) :
    c.tuner.rMin ≤
      (candidate_commit env tuners property lastValue tgtMin tgtMax c).getD
        c.tuner.rMin ∧
    (candidate_commit env tuners property lastValue tgtMin tgtMax c).getD
        c.tuner.rMin ≤ c.tuner.rMax := by
  have hst0 : set_named_control_limits c.cam (some c.tuner.rMin)
      (some c.tuner.rMax) 0 64 true =
      ⟨c.tuner.rMin, c.tuner.rMax, none, none⟩ := by
    unfold set_named_control_limits
    simp
  unfold candidate_commit
  rw [henc, hst0]
  simp only [can_tune_property_no_widen tuners c.tuner.ctrlName lastValue
    (tgtMin + (tgtMax - tgtMin) / 2) c.ctrlVal c.tuner.negativeUse
    ⟨c.tuner.rMin, c.tuner.rMax, none, none⟩ hhi hlo]
  by_cases hb : (can_tune_property tuners c.tuner.ctrlName lastValue
      (tgtMin + (tgtMax - tgtMin) / 2) c.ctrlVal c.tuner.negativeUse true
      ⟨c.tuner.rMin, c.tuner.rMax, none, none⟩).1 = true
  · rw [if_pos hb]
    cases hcam : c.cam with
    | none => exact ⟨le_refl _, hrange⟩
    | some cm =>
      cases htv : tune_control_value_by_ID env c.ctrlVal cm.1 cm.2 lastValue
          (tgtMin + (tgtMax - tgtMin) / 2) 256 c.tuner.negativeUse property
          c.tuner.ctrlName tgtMin tgtMax with
      | error e =>
        simp only [htv]
        exact ⟨le_refl _, hrange⟩
      | ok aVal =>
        simp only [htv]
        rw [limit_clamp_of_no_noclamp
          ⟨c.tuner.rMin, c.tuner.rMax, none, none⟩ aVal rfl]
        dsimp only
        split_ifs <;> refine ⟨?_, ?_⟩ <;> simp [Option.getD] <;> linarith
  · rw [if_neg hb]
    exact ⟨le_refl _, hrange⟩

/-- **C6 (witness).** The amended bound at a concrete single-Tuner setup
(range [10, 50], `encourageLimits = true`, starting control value 40, the
property must increase). -/
theorem encourage_limits_bound_witness :
    (10 : ℝ) ≤
      (candidate_commit ⟨true, 1 / 20, 5⟩
        [⟨"Brightness", "Gamma", -1, 10, 50, false, true⟩] "Brightness"
        100 110 130
        ⟨⟨"Brightness", "Gamma", -1, 10, 50, false, true⟩, 40,
          some (0, 500)⟩).getD 10 ∧
    (candidate_commit ⟨true, 1 / 20, 5⟩
        [⟨"Brightness", "Gamma", -1, 10, 50, false, true⟩] "Brightness"
        100 110 130
        ⟨⟨"Brightness", "Gamma", -1, 10, 50, false, true⟩, 40,
          some (0, 500)⟩).getD 10 ≤ 50 := by
  have h := encourage_limits_bound ⟨true, 1 / 20, 5⟩
    [⟨"Brightness", "Gamma", -1, 10, 50, false, true⟩] "Brightness"
    100 110 130
    ⟨⟨"Brightness", "Gamma", -1, 10, 50, false, true⟩, 40, some (0, 500)⟩
    rfl (by norm_num) (fun _ => by norm_num) (fun hgt => by norm_num at hgt)
  exact h
lemma ok_bind {α β : Type} (a : α) (f : α → Except PyError β) :
    (Except.ok a >>= f : Except PyError β) = f a := rfl

/-- Tuner: Brightness via the Gamma control, preferred range [10, 50],
`encourageLimits` on. -/
noncomputable def cexT1 : Tuner :=
  ⟨"Brightness", "Gamma", -1, 10, 50, false, true⟩

/-- A second tuner sharing the Gamma control (for Contrast) with the wider
preferred range [10, 200]. -/
noncomputable def cexT2 : Tuner :=
  ⟨"Contrast", "Gamma", -1, 10, 200, false, true⟩

noncomputable def cexTuners : List Tuner := [cexT1, cexT2]

/-- The Gamma control currently sits at 180 (set earlier through the wider
Contrast tuner); the camera's own Gamma range is [0, 500]. -/
noncomputable def cexCand : Candidate := ⟨cexT1, 180, some (0, 500)⟩

/-- Daytime, `random.uniform` draw 0.05, `random.randint(1, 15)` draw 5. -/
noncomputable def cexEnv : TuneEnv := ⟨true, 1 / 20, 5⟩

lemma cex_hval : frac_or_clamped 100 1 256 = Except.ok (99 / 255) := by
  unfold frac_or_clamped property_value_as_fraction property_range
    property_zero_base
  norm_num

lemma cex_htgt : frac_or_clamped 120 1 256 = Except.ok (119 / 255) := by
  unfold frac_or_clamped property_value_as_fraction property_range
    property_zero_base
  norm_num

lemma cex_hctrl : frac_or_clamped 180 0 500 = Except.ok (9 / 25) := by
  unfold frac_or_clamped property_value_as_fraction property_range
    property_zero_base
  norm_num

lemma cex_power :
    get_control_tune_power true "Brightness" "Gamma"
      (decide ((100 : ℝ) < 110 ∨ (100 : ℝ) > 130)) = 1.15 := by
  have hd : decide ((100 : ℝ) < 110 ∨ (100 : ℝ) > 130) = true :=
    decide_eq_true (Or.inl (by norm_num))
  rw [hd]
  simp only [get_control_tune_power]
  rw [if_neg (by decide), if_neg (by decide), if_neg (by decide)]
  norm_num

/-- The damped delta fraction of the counterexample run:
`pow(20/255, 1.15)`. -/
noncomputable def cexE : ℝ := (4 / 51 : ℝ) ^ (1.15 : ℝ)

lemma cexE_le : cexE ≤ 4 / 51 := by
  have h := Real.rpow_le_rpow_of_exponent_ge
    (show (0 : ℝ) < 4 / 51 by norm_num) (show (4 / 51 : ℝ) ≤ 1 by norm_num)
    (show (1 : ℝ) ≤ 1.15 by norm_num)
  rw [Real.rpow_one] at h
  exact h

lemma cexE_pos : (0 : ℝ) < cexE :=
  Real.rpow_pos_of_pos (by norm_num) _

lemma cexE_gt : (1 / 100 : ℝ) < cexE := by
  have h32 : (4 / 51 : ℝ) ^ ((3 : ℝ) / 2) ≤ cexE :=
    Real.rpow_le_rpow_of_exponent_ge (by norm_num) (by norm_num)
      (by norm_num)
  have hA : (0 : ℝ) ≤ (4 / 51 : ℝ) ^ ((3 : ℝ) / 2) :=
    Real.rpow_nonneg (by norm_num) _
  have hsq : ((4 / 51 : ℝ) ^ ((3 : ℝ) / 2)) ^ (2 : ℕ) =
      (4 / 51 : ℝ) ^ ((3 : ℝ)) := by
    rw [← Real.rpow_natCast ((4 / 51 : ℝ) ^ ((3 : ℝ) / 2)) 2,
      ← Real.rpow_mul (by norm_num : (0 : ℝ) ≤ 4 / 51)]
    norm_num
  have hcube : (4 / 51 : ℝ) ^ ((3 : ℝ)) = (4 / 51 : ℝ) ^ (3 : ℕ) := by
    rw [show ((3 : ℝ)) = ((3 : ℕ) : ℝ) by norm_num, Real.rpow_natCast]
  have hlt : (1 / 100 : ℝ) ^ (2 : ℕ) <
      ((4 / 51 : ℝ) ^ ((3 : ℝ) / 2)) ^ (2 : ℕ) := by
    rw [hsq, hcube]
    norm_num
  exact lt_of_lt_of_le (lt_of_pow_lt_pow_left₀ 2 hA hlt) h32

lemma cex_hdelta :
    compute_applied_delta (99 / 255) (119 / 255) (9 / 25) 1.15 =
      .ok cexE := by
  have habs : |(119 : ℝ) / 255 - 99 / 255| = 4 / 51 := by
    rw [show (119 : ℝ) / 255 - 99 / 255 = 4 / 51 by norm_num,
      abs_of_pos (by norm_num)]
  unfold compute_applied_delta
  rw [if_pos ⟨by rw [is_frac]; constructor <;> norm_num,
    by rw [is_frac]; constructor <;> norm_num,
    by rw [is_frac]; constructor <;> norm_num⟩]
  rw [applied_delta_body_eq _ _ _ _ (by rw [is_frac]; constructor <;> norm_num)
    (by rw [is_frac]; constructor <;> norm_num)
    (by rw [is_frac]; constructor <;> norm_num) (by norm_num)]
  rw [raw_delta_nonneg_eq 1.15 (by norm_num), habs]
  rw [if_neg (by push_neg; have h := cexE_le; unfold cexE at h; linarith)]
  rfl

lemma cex_hpfv :
    property_fraction_as_value (9 / 25 + cexE) 0 500 =
      .ok ((9 / 25 + cexE) * 500) := by
  have hcond : ¬((9 / 25 + cexE) < 0 ∨ (9 / 25 + cexE) > 1) := by
    push_neg
    constructor <;> linarith [cexE_pos, cexE_le]
  unfold property_fraction_as_value property_range property_zero_base
  rw [if_neg hcond, if_neg (by norm_num : ¬((0 : ℝ) > 500))]
  norm_num

lemma cex_pyInt_180 : pyInt (180 : ℝ) = 180 := by
  unfold pyInt
  rw [if_pos (by norm_num)]
  norm_num

lemma cex_pyInt_185 : pyInt (185 : ℝ) = 185 := by
  unfold pyInt
  rw [if_pos (by norm_num)]
  norm_num

/-- `__tune_control_value_by_ID` at the counterexample input: last Brightness
100, target midpoint 120, Gamma at 180 in camera range [0, 500], power 1.15
(daytime slow), random cap draw 5 — the computed value is 185. -/
lemma tune_eval_cex :
    tune_control_value_by_ID cexEnv 180 0 500 100 120 256 false "Brightness"
      "Gamma" 110 130 = .ok 185 := by
  have habs4 : |(4 / 51 : ℝ)| = 4 / 51 := abs_of_pos (by norm_num)
  have habsE : |(9 / 25 + cexE) * 500 - 180| = 500 * cexE := by
    rw [show (9 / 25 + cexE) * 500 - 180 = 500 * cexE by ring]
    exact abs_of_pos (by linarith [cexE_pos])
  have hcap : (5 : ℝ) < 500 * cexE := by
    have := cexE_gt
    linarith
  have hge : (180 : ℝ) ≤ (9 / 25 + cexE) * 500 := by
    nlinarith [cexE_pos]
  unfold tune_control_value_by_ID
  simp only [cexEnv, cex_hval, cex_htgt, cex_hctrl, cex_power, cex_hdelta,
    ok_bind]
  norm_num [habs4, cex_hpfv, habsE, hcap, hge, cex_pyInt_180, cex_pyInt_185,
    ok_bind, pure, Except.pure, limit_property_value_to_range]

/-- **C6 (counterexample).** Two Tuners share the Gamma control with
`encourageLimits = true`: one for Brightness with range [10, 50], one for
Contrast with range [10, 200].  With Gamma currently at 180 and Brightness
needing to increase (last value 100, target band [110, 130]),
`__can_tune_property` widens the active high limit to 200, the tuner
computes 185, and 185 is committed — outside the Brightness Tuner's
configured [10, 50] despite `encourageLimits = true`. -/
theorem encourage_limits_claim_false_at_180 :
    candidate_commit cexEnv cexTuners "Brightness" 100 110 130 cexCand =
      some 185 ∧
    cexCand.tuner.encourageRange = true ∧
    cexCand.tuner.rMax = 50 ∧
    ¬ ((185 : ℝ) ≤ 50) := by
  have hdec : decide ((180 : ℝ) < 200) = true := decide_eq_true (by norm_num)
  have hcan : can_tune_property cexTuners "Gamma" 100 120 180 false true
      ⟨10, 50, none, none⟩ = (true, ⟨10, 200, none, none⟩) := by
    unfold can_tune_property use_named_control_all_properties_hi_limit
    norm_num [cexTuners, cexT1, cexT2, List.foldl, hdec]
  have hst0 : set_named_control_limits (some ((0 : ℝ), (500 : ℝ))) (some 10)
      (some 50) 0 64 true = ⟨10, 50, none, none⟩ := by
    unfold set_named_control_limits
    norm_num
  have hlim : limit_control_value_to_current_range ⟨10, 200, none, none⟩ 185 =
      .ok 185 := by
    rw [limit_clamp_of_no_noclamp ⟨10, 200, none, none⟩ 185 rfl]
    norm_num
  refine ⟨?_, rfl, rfl, by norm_num⟩
  unfold candidate_commit
  simp only [cexCand, cexT1]
  rw [show (110 : ℝ) + (130 - 110) / 2 = 120 by norm_num]
  rw [hst0, hcan]
  simp only [tune_eval_cex, hlim]
  norm_num
end CSDevs
